import Mathlib

/-!
Shallow embedding of the client-side data-access and state-synchronization
layer of the SP-Final repository (src/src/pages/HRDatabase.tsx, which contains
both the HRDatabase view and the AppContext provider).

The provider holds four in-memory collections (hrEntries, questions, answers,
jobs) plus a loading flag, fetches them from a remote persistence service
(supabase) on mount, and exposes mutation operations (addHREntry, addQuestion,
addAnswer, addJob) that write through to the service.

The persistence service is external; its per-call outcomes (rows returned by a
select, or an error) are passed as explicit parameters.  For inserts we model
the service's table state (DB) explicitly: an insert appends rows, with id and
created_at assigned by the service (modelled as a fresh counter and a service
timestamp).  An injected `Option Err` parameter per insert call chooses whether
the service reports an error (in which case the table is unchanged).
-/

namespace HRApp

/-- Errors reported by the persistence service; the layer treats them as an
opaque single kind ("remote operation failed"). -/
abbrev Err := String

/-- Row of the hr_entries table (interface HREntry without the derived
questions field): id and created_at are persistence-assigned. -/
structure HREntryRow where
  id : String
  da_name : String
  company_name : String
  hr_name : String
  hr_contact : String
  created_at : String
deriving DecidableEq, Repr

/-- Row of the questions table (interface Question plus the hr_entry_id
foreign key used by fetchHREntries and addHREntry; none models SQL null for a
standalone question). -/
structure QuestionRow where
  id : String
  text : String
  topic : String
  asked_by : String
  hr_entry_id : Option String
  created_at : String
deriving DecidableEq, Repr

/-- Row of the answers table (interface Answer). -/
structure AnswerRow where
  id : String
  question_id : String
  answer_text : String
  answered_by : String
  created_at : String
deriving DecidableEq, Repr

/-- Row of the jobs table (interface Job): phone_number and file_name are
nullable columns, none models SQL null. -/
structure JobRow where
  id : String
  da_name : String
  company_name : String
  phone_number : Option String
  job_link : String
  file_name : Option String
  created_at : String
deriving DecidableEq, Repr

/-- An HR entry as held in local state after fetchHREntries: the row spread
together with the attached list of its question rows (line 316-319 of the
source builds exactly this shape). -/
structure HREntryLocal where
  row : HREntryRow
  questions : List QuestionRow
deriving DecidableEq, Repr

/-- The provider's local React state: the four collections and the loading
flag (useState hooks at lines 296-300). -/
structure StoreState where
  hrEntries : List HREntryLocal
  questions : List QuestionRow
  answers : List AnswerRow
  jobs : List JobRow
  loading : Bool
deriving DecidableEq, Repr

/-- Model of the persistence service's table state.  nextId is the service's
fresh-id source and now the timestamp it stamps on inserted rows; both are
service-assigned, never chosen by the client. -/
structure DB where
  hr_entries : List HREntryRow
  questions : List QuestionRow
  answers : List AnswerRow
  jobs : List JobRow
  nextId : Nat
  now : String
deriving DecidableEq, Repr

/-- Argument of addHREntry: Omit of HREntry id and created_at together with a
list of question texts (the form submits this shape). -/
structure HREntrySubmission where
  da_name : String
  company_name : String
  hr_name : String
  hr_contact : String
  questions : List String
deriving DecidableEq, Repr

/-- Argument of addQuestion: Omit of Question id and created_at. -/
structure QuestionSubmission where
  text : String
  topic : String
  asked_by : String
deriving DecidableEq, Repr

/-- Argument of addAnswer: Omit of Answer id and created_at. -/
structure AnswerSubmission where
  question_id : String
  answer_text : String
  answered_by : String
deriving DecidableEq, Repr

/-- Argument of addJob: Omit of Job id and created_at.  In TypeScript the
optional fields can be a string, null, or absent (undefined); we encode this
as a doubled Option: none means the field was omitted, some none means an
explicit null, some (some v) a string value. -/
structure JobSubmission where
  da_name : String
  company_name : String
  phone_number : Option (Option String)
  job_link : String
  file_name : Option (Option String)
deriving DecidableEq, Repr

/-- A question row as sent to the insert call, before the service assigns id
and created_at (the object literal built at lines 394-399, and the single-row
insert of addQuestion). -/
structure QuestionInsert where
  text : String
  topic : String
  asked_by : String
  hr_entry_id : Option String
deriving DecidableEq, Repr

/-- The jobToInsert object built by addJob at lines 440-446: every field is
present; phone_number and file_name hold an explicit value or an explicit
null (none), never an absent field. -/
structure JobInsertRow where
  da_name : String
  company_name : String
  job_link : String
  phone_number : Option String
  file_name : Option String
deriving DecidableEq, Repr

/-! Read path -/

/-- Lines 316-319: attach to each HR entry the question rows whose
hr_entry_id strictly equals the entry's id. -/
def joinEntryQuestions (hrs : List HREntryRow) (qs : List QuestionRow) :
    List HREntryLocal :=
  hrs.map fun entry =>
    { row := entry, questions := qs.filter fun q => q.hr_entry_id == some entry.id }

/-- fetchHREntries (lines 302-323): fetch all HR entries, throwing on error;
then fetch all questions, throwing on error; then set hrEntries to the join.
The two select outcomes are the parameters. -/
def fetchHREntries (hrRes : Except Err (List HREntryRow))
    (qRes : Except Err (List QuestionRow)) (s : StoreState) :
    Except Err StoreState :=
  match hrRes with
  | .error e => .error e
  | .ok hrs =>
    match qRes with
    | .error e => .error e
    | .ok qs => .ok { s with hrEntries := joinEntryQuestions hrs qs }

/-- fetchQuestions (lines 325-337): on error, log to console and return,
leaving the collection unchanged; on success replace the collection with the
fetched rows (ordered newest-first by the service). -/
def fetchQuestions (res : Except Err (List QuestionRow)) (s : StoreState) :
    StoreState :=
  match res with
  | .error _ => s
  | .ok data => { s with questions := data }

/-- fetchAnswers (lines 339-351): same silent-catch shape as fetchQuestions. -/
def fetchAnswers (res : Except Err (List AnswerRow)) (s : StoreState) :
    StoreState :=
  match res with
  | .error _ => s
  | .ok data => { s with answers := data }

/-- fetchJobs (lines 353-365): same silent-catch shape as fetchQuestions. -/
def fetchJobs (res : Except Err (List JobRow)) (s : StoreState) : StoreState :=
  match res with
  | .error _ => s
  | .ok data => { s with jobs := data }

/-- The five select outcomes a full reload consumes: the two sequential
selects inside fetchHREntries, then the selects of fetchQuestions,
fetchAnswers and fetchJobs. -/
structure RefreshInput where
  hrRes : Except Err (List HREntryRow)
  hrQRes : Except Err (List QuestionRow)
  qRes : Except Err (List QuestionRow)
  aRes : Except Err (List AnswerRow)
  jRes : Except Err (List JobRow)
deriving Repr

/-- refreshData (lines 367-376): set loading true, run the four fetches under
Promise.all, set loading false when all four resolve.  Only fetchHREntries
can reject; the other three catch internally and always apply their state
update (a rejection of Promise.all does not cancel them, and they touch
disjoint state fields, so their interleaving is immaterial).  On rejection the
function returns the error and loading is never reset. -/
def refreshData (inp : RefreshInput) (s : StoreState) : StoreState × Option Err :=
  let s1 := { s with loading := true }
  let s2 := fetchQuestions inp.qRes s1
  let s3 := fetchAnswers inp.aRes s2
  let s4 := fetchJobs inp.jRes s3
  match fetchHREntries inp.hrRes inp.hrQRes s4 with
  | .error e => (s4, some e)
  | .ok s5 => ({ s5 with loading := false }, none)

/-- The mount effect (lines 378-380): call refreshData and attach no rejection
handler, so a rejection passes through unhandled. -/
def mountEffect (inp : RefreshInput) (s : StoreState) : StoreState × Option Err :=
  refreshData inp s

/-! Write path: the service side of an insert -/

/-- Service-side single-row insert into hr_entries with returning: assigns id
and created_at and appends the row. -/
def insertHREntryRow (db : DB) (e : HREntrySubmission) : HREntryRow × DB :=
  let row : HREntryRow :=
    { id := toString db.nextId, da_name := e.da_name,
      company_name := e.company_name, hr_name := e.hr_name,
      hr_contact := e.hr_contact, created_at := db.now }
  (row, { db with hr_entries := db.hr_entries ++ [row], nextId := db.nextId + 1 })

/-- Service-side assignment of id and created_at to a batch of question rows
(consecutive fresh ids). -/
def assignQuestionRows : Nat → String → List QuestionInsert → List QuestionRow
  | _, _, [] => []
  | n, now, r :: rs =>
    { id := toString n, text := r.text, topic := r.topic,
      asked_by := r.asked_by, hr_entry_id := r.hr_entry_id, created_at := now }
      :: assignQuestionRows (n + 1) now rs

/-- Service-side batch insert into questions (no returning requested). -/
def insertQuestionRowsDB (db : DB) (rows : List QuestionInsert) : DB :=
  { db with questions := db.questions ++ assignQuestionRows db.nextId db.now rows,
            nextId := db.nextId + rows.length }

/-- Service-side single-row insert into questions with returning. -/
def insertQuestionRowDB (db : DB) (r : QuestionInsert) : QuestionRow × DB :=
  let row : QuestionRow :=
    { id := toString db.nextId, text := r.text, topic := r.topic,
      asked_by := r.asked_by, hr_entry_id := r.hr_entry_id,
      created_at := db.now }
  (row, { db with questions := db.questions ++ [row], nextId := db.nextId + 1 })

/-- Service-side single-row insert into answers with returning. -/
def insertAnswerRowDB (db : DB) (a : AnswerSubmission) : AnswerRow × DB :=
  let row : AnswerRow :=
    { id := toString db.nextId, question_id := a.question_id,
      answer_text := a.answer_text, answered_by := a.answered_by,
      created_at := db.now }
  (row, { db with answers := db.answers ++ [row], nextId := db.nextId + 1 })

/-- Service-side single-row insert into jobs with returning. -/
def insertJobRowDB (db : DB) (r : JobInsertRow) : JobRow × DB :=
  let row : JobRow :=
    { id := toString db.nextId, da_name := r.da_name,
      company_name := r.company_name, phone_number := r.phone_number,
      job_link := r.job_link, file_name := r.file_name, created_at := db.now }
  (row, { db with jobs := db.jobs ++ [row], nextId := db.nextId + 1 })

/-! Write path: the mutation operations -/

/-- addHREntry (lines 382-406): split the question texts from the scalar
fields; insert the scalar row (throwing on error); if the text list is
non-empty, build one question row per text with topic and asked_by empty and
hr_entry_id the new entry's id, and batch-insert them (throwing on error, the
entry row staying inserted).  Local state is never updated.  hrFail and qFail
inject the service outcome of the two inserts (some e means the service
reports error e; a failed insert inserts nothing). -/
def addHREntry (entry : HREntrySubmission) (hrFail qFail : Option Err)
    (db : DB) (s : StoreState) : DB × StoreState × Option Err :=
  match hrFail with
  | some e => (db, s, some e)
  | none =>
    let (hrEntry, db1) := insertHREntryRow db entry
    if entry.questions.length > 0 then
      let questionRows := entry.questions.map fun q =>
        ({ text := q, topic := "", asked_by := "",
           hr_entry_id := some hrEntry.id } : QuestionInsert)
      match qFail with
      | some e => (db1, s, some e)
      | none => (insertQuestionRowsDB db1 questionRows, s, none)
    else (db1, s, none)

/-- addQuestion (lines 408-421): insert one row with returning; on error log
and throw, leaving state untouched; on success prepend the returned row to the
questions collection. -/
def addQuestion (question : QuestionSubmission) (fail : Option Err) (db : DB)
    (s : StoreState) : DB × StoreState × Option Err :=
  match fail with
  | some e => (db, s, some e)
  | none =>
    let (data, db1) := insertQuestionRowDB db
      { text := question.text, topic := question.topic,
        asked_by := question.asked_by, hr_entry_id := none }
    (db1, { s with questions := data :: s.questions }, none)

/-- addAnswer (lines 423-436): same shape as addQuestion on the answers
collection. -/
def addAnswer (answer : AnswerSubmission) (fail : Option Err) (db : DB)
    (s : StoreState) : DB × StoreState × Option Err :=
  match fail with
  | some e => (db, s, some e)
  | none =>
    let (data, db1) := insertAnswerRowDB db answer
    (db1, { s with answers := data :: s.answers }, none)

/-- The jobToInsert normalization at lines 440-446: every field is written
into the row, with phone_number and file_name coalesced to explicit null when
absent (x ?? null maps undefined to null and is the identity on null and on
strings, i.e. Option.join on the doubled-Option encoding). -/
def jobToInsert (job : JobSubmission) : JobInsertRow :=
  { da_name := job.da_name, company_name := job.company_name,
    job_link := job.job_link, phone_number := job.phone_number.join,
    file_name := job.file_name.join }

/-- addJob (lines 438-462): build jobToInsert, insert it with returning; on
error alert the user, log, and throw, leaving state untouched; on success
prepend the returned row to the jobs collection. -/
def addJob (job : JobSubmission) (fail : Option Err) (db : DB)
    (s : StoreState) : DB × StoreState × Option Err :=
  let row := jobToInsert job
  match fail with
  | some e => (db, s, some e)
  | none =>
    let (data, db1) := insertJobRowDB db row
    (db1, { s with jobs := data :: s.jobs }, none)

/-! Helper lemmas -/

/-- The service assigns metadata without changing how many rows a batch
insert receives. -/
theorem assignQuestionRows_length (now : String) :
    ∀ (rows : List QuestionInsert) (n : Nat),
      (assignQuestionRows n now rows).length = rows.length := by
  intro rows
  induction rows with
  | nil => intro n; rfl
  | cons r rs ih =>
    intro n
    simp [assignQuestionRows, ih]

/-- Every row produced by the service-side batch assignment carries the
payload fields of some row of the batch it was given. -/
theorem assignQuestionRows_fields (now : String) :
    ∀ (rows : List QuestionInsert) (n : Nat) (q : QuestionRow),
      q ∈ assignQuestionRows n now rows →
      ∃ r ∈ rows, q.text = r.text ∧ q.topic = r.topic ∧
        q.asked_by = r.asked_by ∧ q.hr_entry_id = r.hr_entry_id := by
  intro rows
  induction rows with
  | nil => intro n q h; cases h
  | cons r rs ih =>
    intro n q h
    rw [assignQuestionRows, List.mem_cons] at h
    rcases h with h | h
    · exact ⟨r, List.mem_cons_self r rs, by subst h; exact ⟨rfl, rfl, rfl, rfl⟩⟩
    · obtain ⟨r', hr', hf⟩ := ih (n + 1) q h
      exact ⟨r', List.mem_cons_of_mem r hr', hf⟩

/-! Sample data used by the witness theorems -/

/-- An empty persistence-service state stamping timestamp t0. -/
def dbSample : DB :=
  { hr_entries := [], questions := [], answers := [], jobs := [],
    nextId := 0, now := "t0" }

/-- An initial store state (empty collections, loading true as on mount). -/
def storeSample : StoreState :=
  { hrEntries := [], questions := [], answers := [], jobs := [],
    loading := true }

/-- The HR-entry submission of the scenario in the specification. -/
def hrSubSample : HREntrySubmission :=
  { da_name := "A", company_name := "Acme", hr_name := "Bob",
    hr_contact := "555-0100", questions := ["Tell me about yourself"] }

/-- A concrete hr_entries row. -/
def hrRowSample : HREntryRow :=
  { id := "1", da_name := "A", company_name := "Acme", hr_name := "Bob",
    hr_contact := "555-0100", created_at := "t0" }

/-- A concrete questions row linked to hrRowSample. -/
def qRowSample : QuestionRow :=
  { id := "2", text := "Tell me about yourself", topic := "",
    asked_by := "", hr_entry_id := some "1", created_at := "t0" }

/-! Claim theorems -/

/-- C1: for every HR-entry submission with N question texts, a fully
successful addHREntry appends exactly one row to hr_entries and exactly N
rows to questions, each question row carrying the new entry's id as its
hr_entry_id foreign key and empty topic and asked_by, and the operation
reports success. -/
theorem addHREntry_inserts_rows (entry : HREntrySubmission) (db : DB)
    (s : StoreState) :
    ∃ e : HREntryRow, ∃ qs : List QuestionRow,
      (addHREntry entry none none db s).1.hr_entries = db.hr_entries ++ [e] ∧
      (addHREntry entry none none db s).1.questions = db.questions ++ qs ∧
      (addHREntry entry none none db s).2.2 = none ∧
      qs.length = entry.questions.length ∧
      ∀ q ∈ qs, q.hr_entry_id = some e.id ∧ q.topic = "" ∧ q.asked_by = "" := by
  cases hqs : entry.questions with
  | nil =>
    refine ⟨(insertHREntryRow db entry).1, [], ?_, ?_, ?_, ?_, ?_⟩
    · simp [addHREntry, insertHREntryRow, hqs]
    · simp [addHREntry, insertHREntryRow, hqs]
    · simp [addHREntry, insertHREntryRow, hqs]
    · simp [hqs]
    · intro q hq; cases hq
  | cons c rest =>
    refine ⟨(insertHREntryRow db entry).1,
      assignQuestionRows (db.nextId + 1) db.now
        ((c :: rest).map fun q =>
          ({ text := q, topic := "", asked_by := "",
             hr_entry_id := some (toString db.nextId) } : QuestionInsert)),
      ?_, ?_, ?_, ?_, ?_⟩
    · simp [addHREntry, insertHREntryRow, insertQuestionRowsDB, hqs]
    · simp [addHREntry, insertHREntryRow, insertQuestionRowsDB, hqs]
    · simp [addHREntry, insertHREntryRow, insertQuestionRowsDB, hqs]
    · simp [assignQuestionRows_length, hqs]
    · intro q hq
      obtain ⟨r, hr, ht, htp, ha, hid⟩ :=
        assignQuestionRows_fields db.now _ (db.nextId + 1) q hq
      obtain ⟨t, _, rfl⟩ := List.mem_map.mp hr
      exact ⟨hid, htp, ha⟩

/-- C1 witness: the scenario submission from the specification against an
empty service state. -/
theorem addHREntry_inserts_rows_witness :
    ∃ e : HREntryRow, ∃ qs : List QuestionRow,
      (addHREntry hrSubSample none none dbSample storeSample).1.hr_entries
        = dbSample.hr_entries ++ [e] ∧
      (addHREntry hrSubSample none none dbSample storeSample).1.questions
        = dbSample.questions ++ qs ∧
      (addHREntry hrSubSample none none dbSample storeSample).2.2 = none ∧
      qs.length = hrSubSample.questions.length ∧
      ∀ q ∈ qs, q.hr_entry_id = some e.id ∧ q.topic = "" ∧ q.asked_by = "" :=
  addHREntry_inserts_rows hrSubSample dbSample storeSample

/-- C2: when a full reload completes (both selects of the HR-entries path
succeed), every entry of the resulting hrEntries collection holds as its
derived questions field exactly the fetched question rows whose hr_entry_id
equals the entry's id (an entry without matches getting the empty filter
result). -/
theorem refreshData_join (hrs : List HREntryRow) (qs : List QuestionRow)
    (qRes : Except Err (List QuestionRow)) (aRes : Except Err (List AnswerRow))
    (jRes : Except Err (List JobRow)) (s : StoreState) :
    (refreshData ⟨.ok hrs, .ok qs, qRes, aRes, jRes⟩ s).2 = none ∧
    ∀ le ∈ (refreshData ⟨.ok hrs, .ok qs, qRes, aRes, jRes⟩ s).1.hrEntries,
      le.questions = qs.filter fun q => q.hr_entry_id == some le.row.id := by
  constructor
  · cases qRes <;> cases aRes <;> cases jRes <;> rfl
  · intro le hle
    have h : (refreshData ⟨.ok hrs, .ok qs, qRes, aRes, jRes⟩ s).1.hrEntries
        = joinEntryQuestions hrs qs := by
      cases qRes <;> cases aRes <;> cases jRes <;> rfl
    rw [h, joinEntryQuestions] at hle
    obtain ⟨entry, _, rfl⟩ := List.mem_map.mp hle
    rfl

/-- C2 witness: one entry and one linked question row, all four reads
succeeding. -/
theorem refreshData_join_witness :
    (refreshData ⟨.ok [hrRowSample], .ok [qRowSample], .ok [], .ok [],
        .ok []⟩ storeSample).2 = none ∧
    ∀ le ∈ (refreshData ⟨.ok [hrRowSample], .ok [qRowSample], .ok [], .ok [],
        .ok []⟩ storeSample).1.hrEntries,
      le.questions = [qRowSample].filter fun q =>
        q.hr_entry_id == some le.row.id :=
  refreshData_join [hrRowSample] [qRowSample] (.ok []) (.ok []) (.ok [])
    storeSample

/-- C3: a full reload whose HR-entries path succeeds completes without error
and ends with loading false whatever each of the questions, answers and jobs
selects returns; each of those three branches that errors leaves its prior
collection value unchanged, each that succeeds repopulates its collection,
and hrEntries is populated with the join of the successful HR-path reads.
This covers every mixed configuration of the three silently-caught reads. -/
theorem refreshData_partial_degradation (hrs : List HREntryRow)
    (qsF : List QuestionRow) (qRes : Except Err (List QuestionRow))
    (aRes : Except Err (List AnswerRow)) (jRes : Except Err (List JobRow))
    (s : StoreState) :
    (refreshData ⟨.ok hrs, .ok qsF, qRes, aRes, jRes⟩ s).2 = none ∧
    (refreshData ⟨.ok hrs, .ok qsF, qRes, aRes, jRes⟩ s).1.loading = false ∧
    (refreshData ⟨.ok hrs, .ok qsF, qRes, aRes, jRes⟩ s).1.hrEntries
      = joinEntryQuestions hrs qsF ∧
    (∀ e, qRes = .error e →
      (refreshData ⟨.ok hrs, .ok qsF, qRes, aRes, jRes⟩ s).1.questions
        = s.questions) ∧
    (∀ rows, qRes = .ok rows →
      (refreshData ⟨.ok hrs, .ok qsF, qRes, aRes, jRes⟩ s).1.questions
        = rows) ∧
    (∀ e, aRes = .error e →
      (refreshData ⟨.ok hrs, .ok qsF, qRes, aRes, jRes⟩ s).1.answers
        = s.answers) ∧
    (∀ rows, aRes = .ok rows →
      (refreshData ⟨.ok hrs, .ok qsF, qRes, aRes, jRes⟩ s).1.answers
        = rows) ∧
    (∀ e, jRes = .error e →
      (refreshData ⟨.ok hrs, .ok qsF, qRes, aRes, jRes⟩ s).1.jobs
        = s.jobs) ∧
    (∀ rows, jRes = .ok rows →
      (refreshData ⟨.ok hrs, .ok qsF, qRes, aRes, jRes⟩ s).1.jobs
        = rows) := by
  cases qRes <;> cases aRes <;> cases jRes <;>
    refine ⟨rfl, rfl, rfl, ?_, ?_, ?_, ?_, ?_, ?_⟩ <;>
    · intro x h
      cases h <;> rfl

/-- C3 witness: a mixed configuration with the answers select failing while
the questions and jobs selects succeed alongside the successful HR path: the
reload completes, loading ends false, answers keep their prior value, and
questions, jobs and hrEntries are repopulated. -/
theorem refreshData_partial_degradation_witness :
    (refreshData ⟨.ok [hrRowSample], .ok [qRowSample], .ok [qRowSample],
        .error "answers down", .ok []⟩ storeSample).2 = none ∧
    (refreshData ⟨.ok [hrRowSample], .ok [qRowSample], .ok [qRowSample],
        .error "answers down", .ok []⟩ storeSample).1.loading = false ∧
    (refreshData ⟨.ok [hrRowSample], .ok [qRowSample], .ok [qRowSample],
        .error "answers down", .ok []⟩ storeSample).1.hrEntries
      = joinEntryQuestions [hrRowSample] [qRowSample] ∧
    (refreshData ⟨.ok [hrRowSample], .ok [qRowSample], .ok [qRowSample],
        .error "answers down", .ok []⟩ storeSample).1.questions
      = [qRowSample] ∧
    (refreshData ⟨.ok [hrRowSample], .ok [qRowSample], .ok [qRowSample],
        .error "answers down", .ok []⟩ storeSample).1.answers
      = storeSample.answers ∧
    (refreshData ⟨.ok [hrRowSample], .ok [qRowSample], .ok [qRowSample],
        .error "answers down", .ok []⟩ storeSample).1.jobs = [] :=
  have h := refreshData_partial_degradation [hrRowSample] [qRowSample]
    (.ok [qRowSample]) (.error "answers down") (.ok []) storeSample
  ⟨h.1, h.2.1, h.2.2.1, h.2.2.2.2.1 [qRowSample] rfl,
    h.2.2.2.2.2.1 "answers down" rfl, h.2.2.2.2.2.2.2.2 [] rfl⟩

/-- C4: a successful addQuestion, addAnswer and addJob each leave their
collection with the newly returned row at index 0 and the prior rows as the
tail, unchanged in relative order. -/
theorem add_ops_prepend (q : QuestionSubmission) (a : AnswerSubmission)
    (j : JobSubmission) (db1 db2 db3 : DB) (s1 s2 s3 : StoreState) :
    (∃ row, (addQuestion q none db1 s1).2.1.questions = row :: s1.questions ∧
      row.text = q.text ∧ row.topic = q.topic ∧ row.asked_by = q.asked_by) ∧
    (∃ row, (addAnswer a none db2 s2).2.1.answers = row :: s2.answers ∧
      row.question_id = a.question_id ∧ row.answer_text = a.answer_text) ∧
    (∃ row, (addJob j none db3 s3).2.1.jobs = row :: s3.jobs ∧
      row.job_link = j.job_link) :=
  ⟨⟨_, rfl, rfl, rfl, rfl⟩, ⟨_, rfl, rfl, rfl⟩, ⟨_, rfl, rfl⟩⟩

/-- C5: when the persistence service reports an error for the insert of any
mutation operation, the error is returned to the caller and the local store
state is exactly the prior state: no collection gains a row.  For addHREntry
both failing inserts are covered (the entry insert, and the question batch
insert, which also leaves local state untouched). -/
theorem add_failure_no_append (e : Err) (hrSub hrSub2 : HREntrySubmission)
    (qf : Option Err) (q0 : String) (qSub : QuestionSubmission)
    (aSub : AnswerSubmission) (jSub : JobSubmission)
    (db1 db2 db3 db4 db5 db6 : DB) (s1 s2 s3 s4 s5 s6 : StoreState) :
    (addHREntry hrSub (some e) qf db1 s1).2 = (s1, some e) ∧
    (addHREntry hrSub2 none (some e) db2 s2).2.1 = s2 ∧
    (addHREntry { hrSub2 with questions := q0 :: hrSub2.questions } none
      (some e) db6 s6).2 = (s6, some e) ∧
    (addQuestion qSub (some e) db3 s3).2 = (s3, some e) ∧
    (addAnswer aSub (some e) db4 s4).2 = (s4, some e) ∧
    (addJob jSub (some e) db5 s5).2 = (s5, some e) := by
  refine ⟨rfl, ?_, ?_, rfl, rfl, rfl⟩
  · by_cases h : hrSub2.questions.length > 0 <;>
      simp [addHREntry, insertHREntryRow, h]
  · simp [addHREntry, insertHREntryRow]

/-- C6: an error in either step of the HR-entries read path makes the whole
reload return that error, and the mount effect attaches no handler: it
returns the rejected outcome unchanged. -/
theorem hrEntries_error_unhandled (e : Err) (hrs : List HREntryRow)
    (hrQRes : Except Err (List QuestionRow))
    (qRes : Except Err (List QuestionRow)) (aRes : Except Err (List AnswerRow))
    (jRes : Except Err (List JobRow)) (s : StoreState) :
    (refreshData ⟨.error e, hrQRes, qRes, aRes, jRes⟩ s).2 = some e ∧
    (refreshData ⟨.ok hrs, .error e, qRes, aRes, jRes⟩ s).2 = some e ∧
    mountEffect ⟨.error e, hrQRes, qRes, aRes, jRes⟩ s =
      refreshData ⟨.error e, hrQRes, qRes, aRes, jRes⟩ s ∧
    mountEffect ⟨.ok hrs, .error e, qRes, aRes, jRes⟩ s =
      refreshData ⟨.ok hrs, .error e, qRes, aRes, jRes⟩ s := by
  refine ⟨?_, ?_, rfl, rfl⟩ <;> cases qRes <;> cases aRes <;> cases jRes <;> rfl

/-- C7: when the entry insert succeeds but the question batch insert fails
(non-empty text list), addHREntry returns the error, yet the service retains
the freshly inserted HR-entry row, while no question row was inserted. -/
theorem addHREntry_partial_write (da cn hn hc q0 : String)
    (qrest : List String) (e : Err) (db : DB) (s : StoreState) :
    (addHREntry ⟨da, cn, hn, hc, q0 :: qrest⟩ none (some e) db s).2.2
      = some e ∧
    (addHREntry ⟨da, cn, hn, hc, q0 :: qrest⟩ none (some e) db s).1.hr_entries
      = db.hr_entries ++
        [{ id := toString db.nextId, da_name := da, company_name := cn,
           hr_name := hn, hr_contact := hc, created_at := db.now }] ∧
    (addHREntry ⟨da, cn, hn, hc, q0 :: qrest⟩ none (some e) db s).1.questions
      = db.questions := by
  refine ⟨?_, ?_, ?_⟩ <;> simp [addHREntry, insertHREntryRow]

/-- C8: a successful addHREntry leaves every piece of local store state
unchanged: all four collections and the loading flag keep their prior
values. -/
theorem addHREntry_frame (entry : HREntrySubmission) (db : DB)
    (s : StoreState) :
    (addHREntry entry none none db s).2.1.hrEntries = s.hrEntries ∧
    (addHREntry entry none none db s).2.1.questions = s.questions ∧
    (addHREntry entry none none db s).2.1.answers = s.answers ∧
    (addHREntry entry none none db s).2.1.jobs = s.jobs ∧
    (addHREntry entry none none db s).2.1.loading = s.loading ∧
    (addHREntry entry none none db s).2.2 = none := by
  by_cases h : entry.questions.length > 0 <;>
    simp [addHREntry, insertHREntryRow, insertQuestionRowsDB, h]

/-- C9: a Job submission with phone_number omitted is normalized by
jobToInsert to a row whose phone_number field is present and holds the
explicit null marker (not the empty string), and the row the service
persists on success carries that null phone_number. -/
theorem addJob_omitted_phone_normalized (da cn link : String)
    (fn : Option (Option String)) (db : DB) (s : StoreState) :
    (jobToInsert ⟨da, cn, none, link, fn⟩).phone_number = none ∧
    ∃ r : JobRow,
      (addJob ⟨da, cn, none, link, fn⟩ none db s).1.jobs = db.jobs ++ [r] ∧
      r.phone_number = none :=
  ⟨rfl, ⟨_, rfl, rfl⟩⟩

/-- C10: when either step of the HR-entries read path fails, the reload never
resets the loading flag: the resulting state has loading true regardless of
its prior value. -/
theorem hrEntries_error_loading_stuck (e : Err) (hrs : List HREntryRow)
    (hrQRes : Except Err (List QuestionRow))
    (qRes : Except Err (List QuestionRow)) (aRes : Except Err (List AnswerRow))
    (jRes : Except Err (List JobRow)) (s : StoreState) :
    (refreshData ⟨.error e, hrQRes, qRes, aRes, jRes⟩ s).1.loading = true ∧
    (refreshData ⟨.ok hrs, .error e, qRes, aRes, jRes⟩ s).1.loading = true := by
  constructor <;> cases qRes <;> cases aRes <;> cases jRes <;> rfl

end HRApp
